import Mathlib

/-!
Shallow embedding of `src/kpi_calculator_version2.py`, the KPI calculator of
the fuel-cell/battery dashboard. Numbers are modelled as rationals. Python
`float('inf')` sentinels are modelled by an explicit value type `Val` with an
infinity constructor, and Python division (which raises `ZeroDivisionError`
on a zero denominator) is modelled by `pydiv : ℚ → ℚ → Option ℚ`, where
`none` models the raised exception. A calculator function that can, on some
input, reach an unguarded division therefore returns an `Option`; `isSome`
states that the function never raises on that input.
-/

namespace KPI

/-- One electrical load, the `{name, power, hours}` dict of the source. -/
structure Appliance where
  name : String
  power : ℚ
  hours : ℚ
deriving DecidableEq, Repr

/-- A Python float value that is either finite or the `float('inf')` sentinel. -/
inductive Val where
  | fin (q : ℚ)
  | inf
deriving DecidableEq, Repr

/-- Non-negativity for a `Val`: finite and `≥ 0`, or positive infinity. -/
def Val.NonNeg : Val → Prop
  | Val.fin q => 0 ≤ q
  | Val.inf => True

instance : DecidablePred Val.NonNeg := fun v =>
  match v with
  | Val.fin q => inferInstanceAs (Decidable (0 ≤ q))
  | Val.inf => inferInstanceAs (Decidable True)

/-- Python division: `none` models the `ZeroDivisionError` raised on a zero
denominator. -/
def pydiv (a b : ℚ) : Option ℚ :=
  if b = 0 then none else some (a / b)

-- Constants of the source module (lines 5-12).

def METHANOL_CONSUMPTION_PER_KWH : ℚ := 9 / 10

def BATTERY_CAPACITY_AH : ℚ := 105

def BATTERY_VOLTAGE : ℚ := 128 / 10

def BATTERY_CAPACITY_WH : ℚ := BATTERY_CAPACITY_AH * BATTERY_VOLTAGE

def FUEL_CELL_OUTPUT_W : ℚ := 125

def FUEL_CELL_EFFICIENCY : ℚ := 35 / 100

def METHANOL_ENERGY_DENSITY : ℚ := (55 / 10) / 5

def BATTERY_EFFICIENCY : ℚ := 9 / 10

/-- Python `round` to an integer: nearest integer, ties to even. -/
def roundHalfEven (q : ℚ) : ℤ :=
  if q - (⌊q⌋ : ℚ) < 1 / 2 then ⌊q⌋
  else if 1 / 2 < q - (⌊q⌋ : ℚ) then ⌊q⌋ + 1
  else if ⌊q⌋ % 2 = 0 then ⌊q⌋ else ⌊q⌋ + 1

/-- Python `round(x, 1)`: round to one decimal place, ties to even. -/
def pyRound1 (q : ℚ) : ℚ := (roundHalfEven (q * 10) : ℚ) / 10

/-- `calculate_daily_energy_demand`: sum of `power * hours` over the list. -/
def calculate_daily_energy_demand (appliances : List Appliance) : ℚ :=
  (appliances.map (fun app => app.power * app.hours)).sum

/-- `calculate_methanol_consumption`: `(energy_wh / 1000) * METHANOL_CONSUMPTION_PER_KWH`. -/
def calculate_methanol_consumption (energy_wh : ℚ) : ℚ :=
  (energy_wh / 1000) * METHANOL_CONSUMPTION_PER_KWH

/-- `calculate_tank_autonomy`: infinity when consumption is zero, else the
quotient (the guard makes the division safe). -/
def calculate_tank_autonomy (liters_available daily_consumption_l : ℚ) : Option Val :=
  if daily_consumption_l = 0 then some Val.inf
  else (pydiv liters_available daily_consumption_l).map Val.fin

/-- `battery_discharge_time`: infinity when the demand is zero, else
`BATTERY_CAPACITY_WH / energy_wh * 24`. -/
def battery_discharge_time (energy_wh : ℚ) : Option Val :=
  if energy_wh = 0 then some Val.inf
  else (pydiv BATTERY_CAPACITY_WH energy_wh).map (fun q => Val.fin (q * 24))

/-- `fuel_cell_efficiency`: `0` when no methanol was used, else the ratio of
useful energy to the chemical energy of the methanol. -/
def fuel_cell_efficiency (useful_energy_kwh methanol_used_l : ℚ) : Option ℚ :=
  if methanol_used_l = 0 then some 0
  else
    let chemical_energy := methanol_used_l * METHANOL_ENERGY_DENSITY
    pydiv useful_energy_kwh chemical_energy

/-- `peak_load_coverage`: `100.0` while the implied current stays within the
200 A battery limit, else the covered percentage rounded to one decimal. -/
def peak_load_coverage (peak_power_w : ℚ) : Option ℚ :=
  (pydiv peak_power_w BATTERY_VOLTAGE).bind (fun peak_current =>
    if peak_current ≤ 200 then some 100
    else (pydiv (200 * BATTERY_VOLTAGE) peak_power_w).map (fun q => pyRound1 (q * 100)))

/-- `global_system_efficiency`: `0.0` when no methanol was used, else net
energy after battery round-trip loss over the chemical energy of the methanol. -/
def global_system_efficiency (battery_energy_wh fuel_cell_energy_wh methanol_used_l : ℚ) :
    Option ℚ :=
  if methanol_used_l = 0 then some 0
  else
    let net_energy_kwh := (fuel_cell_energy_wh / 1000) * BATTERY_EFFICIENCY
    let chemical_energy_kwh := methanol_used_l * METHANOL_ENERGY_DENSITY
    pydiv net_energy_kwh chemical_energy_kwh

/-- `battery_charge_time_needed`: an unguarded division; the source gives
`fuel_cell_output_w` the default value `FUEL_CELL_OUTPUT_W`, here the caller
passes it explicitly. -/
def battery_charge_time_needed (energy_to_charge_wh fuel_cell_output_w : ℚ) : Option ℚ :=
  pydiv energy_to_charge_wh fuel_cell_output_w

/-- `system_efficiency`: `0.0` when no methanol was used, else delivered
energy over the chemical energy of the methanol. -/
def system_efficiency (energy_delivered_kwh methanol_liters : ℚ) : Option ℚ :=
  if methanol_liters = 0 then some 0
  else
    let chemical_energy_kwh := methanol_liters * METHANOL_ENERGY_DENSITY
    pydiv energy_delivered_kwh chemical_energy_kwh

-- Helper lemmas.

/-- Rounding a non-negative rational to the nearest integer stays non-negative. -/
theorem roundHalfEven_nonneg {q : ℚ} (h : 0 ≤ q) : 0 ≤ roundHalfEven q := by
  have hn : (0 : ℤ) ≤ ⌊q⌋ := Int.floor_nonneg.mpr h
  unfold roundHalfEven
  split_ifs <;> omega

/-- Rounding a non-negative rational to one decimal place stays non-negative. -/
theorem pyRound1_nonneg {q : ℚ} (h : 0 ≤ q) : 0 ≤ pyRound1 q := by
  unfold pyRound1
  have h10 : (0 : ℚ) ≤ q * 10 := by positivity
  have hz := roundHalfEven_nonneg h10
  have hc : (0 : ℚ) ≤ (roundHalfEven (q * 10) : ℚ) := by exact_mod_cast hz
  exact div_nonneg hc (by norm_num)

-- Theorems settling the claims.

/-- Claim C1, counterexample to the claim as stated: `battery_charge_time_needed`
is not defined for every numeric value of its `fuel_cell_output_w` argument; at
`fuel_cell_output_w = 0` the unguarded division raises (modelled as `none`). -/
theorem bctn_zero_denominator_raises :
    battery_charge_time_needed 100 0 = none := by
  norm_num [battery_charge_time_needed, pydiv]

/-- Claim C1, amended: every guarded calculator function returns a defined value
on all rational inputs, and `battery_charge_time_needed` returns a defined value
whenever `fuel_cell_output_w` is nonzero (the remaining functions,
`calculate_daily_energy_demand` and `calculate_methanol_consumption`, contain no
division and are total by construction). -/
theorem calculator_never_raises (l d e p b f m w : ℚ) (hw : w ≠ 0) :
    (calculate_tank_autonomy l d).isSome ∧
    (battery_discharge_time e).isSome ∧
    (fuel_cell_efficiency f m).isSome ∧
    (peak_load_coverage p).isSome ∧
    (global_system_efficiency b f m).isSome ∧
    (system_efficiency f m).isSome ∧
    (battery_charge_time_needed e w).isSome := by
  have hBV : BATTERY_VOLTAGE ≠ 0 := by norm_num [BATTERY_VOLTAGE]
  have hMD : METHANOL_ENERGY_DENSITY ≠ 0 := by norm_num [METHANOL_ENERGY_DENSITY]
  refine ⟨?_, ?_, ?_, ?_, ?_, ?_, ?_⟩
  · by_cases h : d = 0
    · simp [calculate_tank_autonomy, h]
    · simp [calculate_tank_autonomy, pydiv, h]
  · by_cases h : e = 0
    · simp [battery_discharge_time, h]
    · simp [battery_discharge_time, pydiv, h]
  · by_cases h : m = 0
    · simp [fuel_cell_efficiency, h]
    · simp [fuel_cell_efficiency, pydiv, h, mul_ne_zero h hMD]
  · by_cases h : p / BATTERY_VOLTAGE ≤ 200
    · simp [peak_load_coverage, pydiv, hBV, h]
    · have hp : p ≠ 0 := by
        intro h0
        exact h (by simp [h0])
      simp [peak_load_coverage, pydiv, hBV, h, hp]
  · by_cases h : m = 0
    · simp [global_system_efficiency, h]
    · simp [global_system_efficiency, pydiv, h, mul_ne_zero h hMD]
  · by_cases h : m = 0
    · simp [system_efficiency, h]
    · simp [system_efficiency, pydiv, h, mul_ne_zero h hMD]
  · simp [battery_charge_time_needed, pydiv, hw]

/-- Witness for the amended claim C1 at concrete inputs, with the default
fuel-cell output of 125 W. -/
theorem calculator_never_raises_witness :
    (calculate_tank_autonomy 10 0).isSome ∧
    (battery_discharge_time 0).isSome ∧
    (fuel_cell_efficiency 2 3).isSome ∧
    (peak_load_coverage 3000).isSome ∧
    (global_system_efficiency 1 2 3).isSome ∧
    (system_efficiency 2 3).isSome ∧
    (battery_charge_time_needed 100 125).isSome :=
  calculator_never_raises 10 0 0 3000 1 2 3 125 (by norm_num)

/-- Claim C2: `calculate_tank_autonomy` returns positive infinity when the daily
consumption is zero and the exact quotient otherwise; in particular it maps
`(10, 0)` to infinity and `(10, 2)` to `5`. -/
theorem tank_autonomy_spec :
    (∀ l d : ℚ, calculate_tank_autonomy l d =
        if d = 0 then some Val.inf else some (Val.fin (l / d))) ∧
    calculate_tank_autonomy 10 0 = some Val.inf ∧
    calculate_tank_autonomy 10 2 = some (Val.fin 5) := by
  refine ⟨fun l d => ?_, by norm_num [calculate_tank_autonomy],
    by norm_num [calculate_tank_autonomy, pydiv]⟩
  by_cases h : d = 0
  · simp [calculate_tank_autonomy, h]
  · simp [calculate_tank_autonomy, pydiv, h]

/-- Claim C3: `global_system_efficiency` returns exactly `0` when no methanol
was used, and `((fuel_cell_energy_wh / 1000) * BATTERY_EFFICIENCY) /
(methanol_used_l * METHANOL_ENERGY_DENSITY)` otherwise. -/
theorem global_system_efficiency_spec (b f m : ℚ) :
    global_system_efficiency b f m =
      if m = 0 then some 0
      else some ((f / 1000 * BATTERY_EFFICIENCY) / (m * METHANOL_ENERGY_DENSITY)) := by
  by_cases h : m = 0
  · simp [global_system_efficiency, h]
  · have hden : m * METHANOL_ENERGY_DENSITY ≠ 0 :=
      mul_ne_zero h (by norm_num [METHANOL_ENERGY_DENSITY])
    simp [global_system_efficiency, pydiv, h, hden]

/-- Claim C4: `calculate_daily_energy_demand` is the sum of `power * hours` over
the appliance list, `0` on the empty list, and `400` on the two-appliance
example `[{power 100, hours 2}, {power 50, hours 4}]`. -/
theorem daily_energy_demand_spec :
    (∀ apps : List Appliance,
        calculate_daily_energy_demand apps =
          (apps.map (fun a => a.power * a.hours)).sum) ∧
    calculate_daily_energy_demand [] = 0 ∧
    calculate_daily_energy_demand
      [{ name := "a", power := 100, hours := 2 },
       { name := "b", power := 50, hours := 4 }] = 400 :=
  ⟨fun apps => rfl, rfl, by norm_num [calculate_daily_energy_demand]⟩

/-- Claim C5: `battery_discharge_time` returns positive infinity at zero demand
and `BATTERY_CAPACITY_WH / energy_wh * 24` otherwise; in particular it maps
`0` to infinity and `BATTERY_CAPACITY_WH` to `24`. -/
theorem battery_discharge_time_spec :
    (∀ e : ℚ, battery_discharge_time e =
        if e = 0 then some Val.inf
        else some (Val.fin (BATTERY_CAPACITY_WH / e * 24))) ∧
    battery_discharge_time 0 = some Val.inf ∧
    battery_discharge_time BATTERY_CAPACITY_WH = some (Val.fin 24) := by
  refine ⟨fun e => ?_, by norm_num [battery_discharge_time],
    by norm_num [battery_discharge_time, pydiv, BATTERY_CAPACITY_WH, BATTERY_CAPACITY_AH,
      BATTERY_VOLTAGE]⟩
  by_cases h : e = 0
  · simp [battery_discharge_time, h]
  · simp [battery_discharge_time, pydiv, h]

/-- Claim C6: `peak_load_coverage` returns `100` when the implied current
`peak_power_w / BATTERY_VOLTAGE` is at most 200 A, and the rounded percentage
`round(200 * BATTERY_VOLTAGE / peak_power_w * 100, 1)` otherwise; in particular
it maps `2400` to `100` and `3000` to `85.3`. -/
theorem peak_load_coverage_spec :
    (∀ p : ℚ, peak_load_coverage p =
        if p / BATTERY_VOLTAGE ≤ 200 then some 100
        else some (pyRound1 (200 * BATTERY_VOLTAGE / p * 100))) ∧
    peak_load_coverage 2400 = some 100 ∧
    peak_load_coverage 3000 = some (853 / 10) := by
  have hBV : BATTERY_VOLTAGE ≠ 0 := by norm_num [BATTERY_VOLTAGE]
  have hfr : Int.fract ((2560 : ℚ) / 3) < 1 / 2 := by
    rw [Int.fract]
    norm_num
  refine ⟨fun p => ?_, by norm_num [peak_load_coverage, pydiv, BATTERY_VOLTAGE],
    by norm_num [peak_load_coverage, pydiv, BATTERY_VOLTAGE, pyRound1, roundHalfEven, hfr]⟩
  by_cases h : p / BATTERY_VOLTAGE ≤ 200
  · simp [peak_load_coverage, pydiv, hBV, h]
  · have hp : p ≠ 0 := by
      intro h0
      exact h (by simp [h0])
    simp [peak_load_coverage, pydiv, hBV, h, hp]

/-- Claim C7: increasing the hours of one appliance, keeping its power and all
other appliances fixed, never decreases the daily energy demand (the changed
appliance's power must be non-negative). -/
theorem demand_monotone_hours (pre post : List Appliance) (a a' : Appliance)
    (hpow : a'.power = a.power) (hpnn : 0 ≤ a.power) (hh : a.hours ≤ a'.hours) :
    calculate_daily_energy_demand (pre ++ a :: post) ≤
      calculate_daily_energy_demand (pre ++ a' :: post) := by
  unfold calculate_daily_energy_demand
  simp only [List.map_append, List.sum_append, List.map_cons, List.sum_cons]
  have key : a.power * a.hours ≤ a'.power * a'.hours := by
    rw [hpow]
    exact mul_le_mul_of_nonneg_left hh hpnn
  linarith

/-- Witness for claim C7: raising the hours of a 10 W appliance from 1 to 3
does not decrease the demand. -/
theorem demand_monotone_hours_witness :
    calculate_daily_energy_demand [⟨"x", 10, 1⟩] ≤
      calculate_daily_energy_demand [⟨"x", 10, 3⟩] :=
  demand_monotone_hours [] [] ⟨"x", 10, 1⟩ ⟨"x", 10, 3⟩ rfl (by norm_num) (by norm_num)

/-- Claim C8: with non-negative inputs (and a positive fuel-cell output for the
charge-time function) every calculator function returns a non-negative value,
possibly positive infinity. -/
theorem calculator_nonneg (apps : List Appliance) (l d e p b f m w : ℚ)
    (happs : ∀ a ∈ apps, 0 ≤ a.power ∧ 0 ≤ a.hours)
    (hl : 0 ≤ l) (hd : 0 ≤ d) (he : 0 ≤ e) (hp : 0 ≤ p) (hb : 0 ≤ b)
    (hf : 0 ≤ f) (hm : 0 ≤ m) (hw : 0 < w) :
    0 ≤ calculate_daily_energy_demand apps ∧
    0 ≤ calculate_methanol_consumption e ∧
    (∃ v, calculate_tank_autonomy l d = some v ∧ v.NonNeg) ∧
    (∃ v, battery_discharge_time e = some v ∧ v.NonNeg) ∧
    (∃ q, battery_charge_time_needed e w = some q ∧ 0 ≤ q) ∧
    (∃ q, global_system_efficiency b f m = some q ∧ 0 ≤ q) ∧
    (∃ q, fuel_cell_efficiency f m = some q ∧ 0 ≤ q) ∧
    (∃ q, system_efficiency f m = some q ∧ 0 ≤ q) ∧
    (∃ q, peak_load_coverage p = some q ∧ 0 ≤ q) := by
  have hMD : (0 : ℚ) < METHANOL_ENERGY_DENSITY := by norm_num [METHANOL_ENERGY_DENSITY]
  have hBE : (0 : ℚ) ≤ BATTERY_EFFICIENCY := by norm_num [BATTERY_EFFICIENCY]
  refine ⟨?_, ?_, ?_, ?_, ?_, ?_, ?_, ?_, ?_⟩
  · apply List.sum_nonneg
    intro x hx
    simp only [List.mem_map] at hx
    obtain ⟨a, ha, rfl⟩ := hx
    exact mul_nonneg (happs a ha).1 (happs a ha).2
  · exact mul_nonneg (div_nonneg he (by norm_num))
      (by norm_num [METHANOL_CONSUMPTION_PER_KWH])
  · by_cases h : d = 0
    · exact ⟨Val.inf, by simp [calculate_tank_autonomy, h], trivial⟩
    · refine ⟨Val.fin (l / d), by simp [calculate_tank_autonomy, pydiv, h], ?_⟩
      exact div_nonneg hl hd
  · by_cases h : e = 0
    · exact ⟨Val.inf, by simp [battery_discharge_time, h], trivial⟩
    · refine ⟨Val.fin (BATTERY_CAPACITY_WH / e * 24),
        by simp [battery_discharge_time, pydiv, h], ?_⟩
      have hcap : (0 : ℚ) ≤ BATTERY_CAPACITY_WH := by
        norm_num [BATTERY_CAPACITY_WH, BATTERY_CAPACITY_AH, BATTERY_VOLTAGE]
      exact mul_nonneg (div_nonneg hcap he) (by norm_num)
  · refine ⟨e / w, by simp [battery_charge_time_needed, pydiv, ne_of_gt hw], ?_⟩
    exact div_nonneg he hw.le
  · by_cases h : m = 0
    · exact ⟨0, by simp [global_system_efficiency, h], le_refl 0⟩
    · refine ⟨(f / 1000 * BATTERY_EFFICIENCY) / (m * METHANOL_ENERGY_DENSITY),
        by simp [global_system_efficiency, pydiv, h, mul_ne_zero h (ne_of_gt hMD)], ?_⟩
      exact div_nonneg (mul_nonneg (div_nonneg hf (by norm_num)) hBE)
        (mul_nonneg hm hMD.le)
  · by_cases h : m = 0
    · exact ⟨0, by simp [fuel_cell_efficiency, h], le_refl 0⟩
    · refine ⟨f / (m * METHANOL_ENERGY_DENSITY),
        by simp [fuel_cell_efficiency, pydiv, h, mul_ne_zero h (ne_of_gt hMD)], ?_⟩
      exact div_nonneg hf (mul_nonneg hm hMD.le)
  · by_cases h : m = 0
    · exact ⟨0, by simp [system_efficiency, h], le_refl 0⟩
    · refine ⟨f / (m * METHANOL_ENERGY_DENSITY),
        by simp [system_efficiency, pydiv, h, mul_ne_zero h (ne_of_gt hMD)], ?_⟩
      exact div_nonneg hf (mul_nonneg hm hMD.le)
  · have hBV : BATTERY_VOLTAGE ≠ 0 := by norm_num [BATTERY_VOLTAGE]
    by_cases h : p / BATTERY_VOLTAGE ≤ 200
    · exact ⟨100, by simp [peak_load_coverage, pydiv, hBV, h], by norm_num⟩
    · have hp0 : p ≠ 0 := by
        intro h0
        exact h (by simp [h0])
      refine ⟨pyRound1 (200 * BATTERY_VOLTAGE / p * 100),
        by simp [peak_load_coverage, pydiv, hBV, h, hp0], ?_⟩
      apply pyRound1_nonneg
      have hnum : (0 : ℚ) ≤ 200 * BATTERY_VOLTAGE := by norm_num [BATTERY_VOLTAGE]
      exact mul_nonneg (div_nonneg hnum hp) (by norm_num)

/-- Witness for claim C8 at concrete non-negative inputs. -/
theorem calculator_nonneg_witness :
    0 ≤ calculate_daily_energy_demand [⟨"a", 100, 2⟩] ∧
    0 ≤ calculate_methanol_consumption 500 ∧
    (∃ v, calculate_tank_autonomy 10 2 = some v ∧ v.NonNeg) ∧
    (∃ v, battery_discharge_time 500 = some v ∧ v.NonNeg) ∧
    (∃ q, battery_charge_time_needed 500 125 = some q ∧ 0 ≤ q) ∧
    (∃ q, global_system_efficiency 1 2 3 = some q ∧ 0 ≤ q) ∧
    (∃ q, fuel_cell_efficiency 2 3 = some q ∧ 0 ≤ q) ∧
    (∃ q, system_efficiency 2 3 = some q ∧ 0 ≤ q) ∧
    (∃ q, peak_load_coverage 3000 = some q ∧ 0 ≤ q) :=
  calculator_nonneg [⟨"a", 100, 2⟩] 10 2 500 3000 1 2 3 125
    (by norm_num) (by norm_num) (by norm_num) (by norm_num) (by norm_num)
    (by norm_num) (by norm_num) (by norm_num) (by norm_num)

/-- Claim C9: `global_system_efficiency` does not depend on its first argument
`battery_energy_wh`. -/
theorem gse_ignores_battery_energy (b b' f m : ℚ) :
    global_system_efficiency b f m = global_system_efficiency b' f m := rfl

/-- Claim C10: `fuel_cell_efficiency` and `system_efficiency` agree on all
inputs, the zero-methanol case included. -/
theorem fce_eq_se (e m : ℚ) :
    fuel_cell_efficiency e m = system_efficiency e m := rfl

end KPI
